import Mathlib

/-!
Verification of the payment-gateway adapter logic in
`src/modules/payment-cashfree/service.ts` (a Cashfree REST provider and a
Razorpay SDK provider for a Medusa commerce backend).

JavaScript values flowing through the adapters (session payloads, gateway
responses, webhook bodies) are modelled by the inductive type `Jval`
(null/undefined, booleans, integers, strings, objects as association lists).
External collaborators (axios calls, the Razorpay SDK, `crypto` HMAC,
`Date.now`, `Math.random`, `JSON.parse`) are passed in as explicit oracle
parameters, so every adapter operation becomes a pure function of its inputs
and its environment.
-/

set_option autoImplicit false
set_option linter.unusedVariables false

namespace CashfreeAdapter

/-- A JavaScript value as it appears in the adapter's data flow.
`null` stands for both JS `null` and `undefined` (the code only ever
distinguishes them through truthiness, where they agree). -/
inductive Jval where
  | null : Jval
  | bool (b : Bool) : Jval
  | num (n : Int) : Jval
  | str (s : String) : Jval
  | obj (fields : List (String × Jval)) : Jval

/-- JavaScript truthiness of a `Jval` (the semantics of `if (v)` / `!v`). -/
def truthy : Jval → Bool
  | .null => false
  | .bool b => b
  | .num n => n != 0
  | .str s => s != ""
  | .obj _ => true

/-- JavaScript property read `v[k]` as used by the adapter: on an object it
returns the field (or `undefined`, modelled `null`, when absent); on any
non-object it returns `undefined`.  Reads on `null`/`undefined` that would
throw a TypeError are modelled separately by `jsGet`. -/
def Jval.get : Jval → String → Jval
  | .obj fields, k =>
    match fields.lookup k with
    | some v => v
    | none => .null
  | _, _ => .null

/-- Property read `v[k]` with the JS TypeError on `null`/`undefined`
receivers made explicit, for code paths whose exceptions are observable. -/
def jsGet (v : Jval) (k : String) : Except String Jval :=
  match v with
  | .null => .error "TypeError: cannot read properties of null"
  | .obj fields =>
    .ok (match fields.lookup k with
         | some x => x
         | none => .null)
  | _ => .ok .null

/-- String coercion used where the code interpolates a value into a
template literal. -/
def Jval.jsString : Jval → String
  | .null => "null"
  | .bool b => if b then "true" else "false"
  | .num n => toString n
  | .str s => s
  | .obj _ => "[object Object]"

theorem lookup_mem_val {l : List (String × Jval)} {k : String} {v : Jval}
    (h : l.lookup k = some v) : ∃ k', (k', v) ∈ l := by
  induction l with
  | nil => simp [List.lookup] at h
  | cons a l ih =>
    obtain ⟨k0, v0⟩ := a
    cases hkb : (k == k0) with
    | true =>
      simp [List.lookup, hkb] at h
      exact ⟨k0, by simp [h]⟩
    | false =>
      simp [List.lookup, hkb] at h
      obtain ⟨k', hk'⟩ := ih h
      exact ⟨k', List.mem_cons_of_mem _ hk'⟩

theorem sizeOf_get_lt {v : Jval} {k : String}
    (h : truthy (v.get k) = true) : sizeOf (v.get k) < sizeOf v := by
  cases v with
  | obj fields =>
    rcases hl : fields.lookup k with _ | w
    · rw [Jval.get, hl] at h
      simp [truthy] at h
    · rw [Jval.get, hl]
      show sizeOf w < sizeOf (Jval.obj fields)
      obtain ⟨k', hmem⟩ := lookup_mem_val hl
      have h1 : sizeOf (k', w) < sizeOf fields := List.sizeOf_lt_of_mem hmem
      have h2 : sizeOf w < sizeOf (k', w) := by simp
      have h3 : sizeOf fields < sizeOf (Jval.obj fields) := by simp
      omega
  | null => simp [Jval.get, truthy] at h
  | bool b => simp [Jval.get, truthy] at h
  | num n => simp [Jval.get, truthy] at h
  | str s => simp [Jval.get, truthy] at h

/-- The while-loop of `flattenData` (service.ts lines 44-48):
`while (clean.data && !clean.order_id) clean = clean.data`. -/
def flattenLoop (clean : Jval) : Jval :=
  if h : (truthy (clean.get "data") && !truthy (clean.get "order_id")) = true then
    flattenLoop (clean.get "data")
  else
    clean
termination_by sizeOf clean
decreasing_by exact sizeOf_get_lt (Bool.and_elim_left h)

/-- The data sanitizer `flattenData` (service.ts lines 41-50):
`if (!data) return {};` then the unwrap loop. -/
def flattenData (data : Jval) : Jval :=
  if truthy data then flattenLoop data else .obj []

/-- Number of times the `flattenData` while-loop descends into the `data`
field (instrumentation of the same loop). -/
def flattenSteps (clean : Jval) : Nat :=
  if h : (truthy (clean.get "data") && !truthy (clean.get "order_id")) = true then
    flattenSteps (clean.get "data") + 1
  else
    0
termination_by sizeOf clean
decreasing_by exact sizeOf_get_lt (Bool.and_elim_left h)

/-- A payload wrapped in `n` layers of `data: ...` around `base`, the
`data.data.data` corruption pattern the sanitizer exists to undo. -/
def nestData : Nat → Jval → Jval
  | 0, base => base
  | n + 1, base => .obj [("data", nestData n base)]

/-- The innermost payload used in the nesting examples. -/
def baseOrder : Jval := .obj [("order_id", .str "order_x")]

/-- Exit condition of the unwrap loop: the current level exposes a truthy
`order_id`, or its `data` field is absent/falsy (JS truthiness, exactly as
the loop guard `clean.data && !clean.order_id` tests it). -/
def stopCond (v : Jval) : Bool :=
  truthy (v.get "order_id") || !truthy (v.get "data")

/-- Unwraps v w holds when repeatedly descending from `v` into the `data`
field, stopping at the first level satisfying `stopCond`, ends at `w`. -/
inductive Unwraps : Jval → Jval → Prop where
  | stop (v : Jval) (h : stopCond v = true) : Unwraps v v
  | step (v w : Jval) (h : stopCond v = false) (hw : Unwraps (v.get "data") w) :
      Unwraps v w

theorem loopCond_eq_not_stopCond (v : Jval) :
    (truthy (v.get "data") && !truthy (v.get "order_id")) = !stopCond v := by
  rw [stopCond]
  cases truthy (v.get "data") <;> cases truthy (v.get "order_id") <;> rfl

theorem flattenLoop_unwraps (v : Jval) : Unwraps v (flattenLoop v) := by
  induction v using flattenLoop.induct with
  | case1 v h ih =>
    rw [flattenLoop, dif_pos h]
    refine Unwraps.step v _ ?_ ih
    rw [loopCond_eq_not_stopCond] at h
    simpa using h
  | case2 v h =>
    rw [flattenLoop, dif_neg h]
    refine Unwraps.stop v ?_
    rw [loopCond_eq_not_stopCond] at h
    simpa using h

theorem unwraps_det {v r1 r2 : Jval} (h1 : Unwraps v r1) (h2 : Unwraps v r2) :
    r1 = r2 := by
  induction h1 with
  | stop v h =>
    cases h2 with
    | stop _ _ => rfl
    | step _ _ h' _ => rw [h] at h'; cases h'
  | step v w h hw ih =>
    cases h2 with
    | stop _ h' => rw [h'] at h; cases h
    | step _ _ _ hw2 => exact ih hw2

theorem nest_get_data (n : Nat) :
    (nestData (n + 1) baseOrder).get "data" = nestData n baseOrder := rfl

theorem truthy_nest (n : Nat) : truthy (nestData n baseOrder) = true := by
  cases n with
  | zero => rfl
  | succ n => rfl

theorem flattenSteps_nest (n : Nat) : flattenSteps (nestData n baseOrder) = n := by
  induction n with
  | zero => rw [flattenSteps]; rfl
  | succ n ih =>
    rw [flattenSteps]
    have hc : (truthy ((nestData (n + 1) baseOrder).get "data") &&
        !truthy ((nestData (n + 1) baseOrder).get "order_id")) = true := by
      rw [nest_get_data, truthy_nest]
      rfl
    rw [dif_pos hc, nest_get_data, ih]

/-- C1: for every map given to `flattenData` it repeatedly descends into the
`data` field until it reaches a level that exposes the `order_id` key (a
truthy one, as the loop guard tests truthiness) or whose `data` field is
absent/falsy, and returns exactly that innermost map; for an absent
(null/undefined, i.e. falsy) input it returns the empty map. -/
theorem flattenData_sanitizes (d : Jval) :
    (truthy d = false → flattenData d = Jval.obj []) ∧
    (truthy d = true →
      Unwraps d (flattenData d) ∧ ∀ r, Unwraps d r → r = flattenData d) := by
  constructor
  · intro h
    rw [flattenData, h]
    rfl
  · intro h
    rw [flattenData, h]
    simp only [if_pos]
    exact ⟨flattenLoop_unwraps d,
      fun r hr => unwraps_det hr (flattenLoop_unwraps d)⟩

/-- Witness for C1 at concrete inputs: the absent input yields the empty
map, and a twice-nested payload unwraps to the level carrying `order_id`. -/
theorem flattenData_sanitizes_witness :
    flattenData Jval.null = Jval.obj [] ∧
    Unwraps (nestData 2 baseOrder) (flattenData (nestData 2 baseOrder)) :=
  ⟨(flattenData_sanitizes Jval.null).1 rfl,
   ((flattenData_sanitizes (nestData 2 baseOrder)).2 rfl).1⟩

/-- C2 (refuting the claimed hard depth cap): the unwrap loop of
`flattenData` has no maximum unwrap depth — on a payload nested 12 levels
deep it performs 12 descents, exceeding the claimed cap of 10. In the
source the loop runs until the `data` chain ends, so a cyclic payload
would never terminate. -/
theorem flattenSteps_exceeds_ten :
    flattenSteps (nestData 12 baseOrder) = 12 ∧ 10 < 12 :=
  ⟨flattenSteps_nest 12, by omega⟩

theorem flattenData_fix (d : Jval) (h : truthy (d.get "order_id") = true) :
    flattenData d = d := by
  cases d with
  | obj fs =>
    rw [show flattenData (Jval.obj fs) = flattenLoop (Jval.obj fs) from rfl]
    have hcond : ¬((truthy ((Jval.obj fs).get "data") &&
        !truthy ((Jval.obj fs).get "order_id")) = true) := by
      rw [h]
      simp
    rw [flattenLoop, dif_neg hcond]
  | null => simp [Jval.get, truthy] at h
  | bool b => simp [Jval.get, truthy] at h
  | num n => simp [Jval.get, truthy] at h
  | str s => simp [Jval.get, truthy] at h

/-- Canonical payment-session states (Medusa `PaymentSessionStatus`). -/
inductive PaymentStatus where
  | PENDING : PaymentStatus
  | AUTHORIZED : PaymentStatus
  | CAPTURED : PaymentStatus
  | CANCELED : PaymentStatus
  | ERROR : PaymentStatus
deriving DecidableEq

/-- Terminal raw Cashfree order states, as tested at service.ts line 157. -/
def isTerminal (s : String) : Bool :=
  s == "PAID" || s == "EXPIRED" || s == "USER_DROPPED"

/-- The switch at service.ts lines 170-181 normalizing the final raw
Cashfree order status into the canonical status. -/
def normalizeCashfreeStatus (s : String) : PaymentStatus :=
  if s == "PAID" then .AUTHORIZED
  else if s == "ACTIVE" then .PENDING
  else if s == "EXPIRED" then .CANCELED
  else if s == "USER_DROPPED" then .CANCELED
  else .ERROR

/-- Observable outcome of the polling loop: final raw status, number of
attempts performed, and the list of inter-attempt delays (in ms). -/
structure PollOut where
  status : String
  attempts : Nat
  waits : List Nat
deriving DecidableEq

/-- The polling while-loop of `getPaymentStatus` (service.ts lines 146-168),
with the poll responses supplied by an oracle mapping the attempt number
(1-based) to `some rawStatus` or `none` for a thrown request error.
`rem` is `maxAttempts - attempts`, the number of loop iterations left. -/
def pollGo (responses : Nat → Option String) (maxAttempts : Nat) :
    Nat → String → Nat → List Nat → PollOut
  | 0, status, attempts, waits => ⟨status, attempts, waits⟩
  | rem + 1, status, attempts, waits =>
    match responses (attempts + 1) with
    | some s =>
      if isTerminal s then ⟨s, attempts + 1, waits⟩
      else
        pollGo responses maxAttempts rem s (attempts + 1)
          (if s == "ACTIVE" && decide (attempts + 1 < maxAttempts)
           then waits ++ [2000] else waits)
    | none =>
      pollGo responses maxAttempts rem status (attempts + 1)
        (if status == "ACTIVE" && decide (attempts + 1 < maxAttempts)
         then waits ++ [2000] else waits)

/-- The poll loop as entered by `getPaymentStatus`: `orderStatus = "ACTIVE"`,
`attempts = 0`, `maxAttempts = 5`. -/
def cashfreePoll (responses : Nat → Option String) : PollOut :=
  pollGo responses 5 5 "ACTIVE" 0 []

/-- Cashfree `getPaymentStatus` (service.ts lines 129-186): sanitize the
session, fail with canonical ERROR when no order id is found, otherwise run
the polling loop and normalize its final raw status.  The `PollOut`
component records the loop's observable trace. -/
def getPaymentStatus (responses : Nat → Option String) (session : Jval) :
    PaymentStatus × PollOut :=
  if truthy ((flattenData session).get "order_id") then
    (normalizeCashfreeStatus (cashfreePoll responses).status, cashfreePoll responses)
  else
    (.ERROR, ⟨"ACTIVE", 0, []⟩)

theorem pollGo_zero (r : Nat → Option String) (m : Nat) (status : String)
    (attempts : Nat) (waits : List Nat) :
    pollGo r m 0 status attempts waits = ⟨status, attempts, waits⟩ := by
  rw [pollGo]

theorem pollGo_succ_some (r : Nat → Option String) (m rem : Nat)
    (status : String) (attempts : Nat) (waits : List Nat) (s : String)
    (hr : r (attempts + 1) = some s) :
    pollGo r m (rem + 1) status attempts waits =
      if isTerminal s then ⟨s, attempts + 1, waits⟩
      else pollGo r m rem s (attempts + 1)
        (if s == "ACTIVE" && decide (attempts + 1 < m)
         then waits ++ [2000] else waits) := by
  rw [pollGo, hr]

theorem pollGo_succ_none (r : Nat → Option String) (m rem : Nat)
    (status : String) (attempts : Nat) (waits : List Nat)
    (hr : r (attempts + 1) = none) :
    pollGo r m (rem + 1) status attempts waits =
      pollGo r m rem status (attempts + 1)
        (if status == "ACTIVE" && decide (attempts + 1 < m)
         then waits ++ [2000] else waits) := by
  rw [pollGo, hr]

theorem pollGo_attempts_le (r : Nat → Option String) (m : Nat) :
    ∀ (rem : Nat) (status : String) (attempts : Nat) (waits : List Nat),
      (pollGo r m rem status attempts waits).attempts ≤ attempts + rem := by
  intro rem
  induction rem with
  | zero =>
    intro status attempts waits
    rw [pollGo_zero]
    show attempts ≤ attempts + 0
    omega
  | succ rem ih =>
    intro status attempts waits
    cases hr : r (attempts + 1) with
    | some s =>
      rw [pollGo_succ_some r m rem status attempts waits s hr]
      by_cases ht : isTerminal s = true
      · rw [if_pos ht]
        show attempts + 1 ≤ attempts + (rem + 1)
        omega
      · rw [if_neg ht]
        exact (ih s (attempts + 1) _).trans (by omega)
    | none =>
      rw [pollGo_succ_none r m rem status attempts waits hr]
      exact (ih status (attempts + 1) _).trans (by omega)

theorem pollGo_first_terminal (r : Nat → Option String) (m : Nat) :
    ∀ (rem : Nat) (status : String) (attempts : Nat) (waits : List Nat)
      (k : Nat) (tk : String),
      attempts < k → k ≤ attempts + rem →
      r k = some tk → isTerminal tk = true →
      (∀ j t, attempts < j → j < k → r j = some t → isTerminal t = false) →
      (pollGo r m rem status attempts waits).attempts = k ∧
      (pollGo r m rem status attempts waits).status = tk := by
  intro rem
  induction rem with
  | zero =>
    intro status attempts waits k tk h1 h2 _ _ _
    omega
  | succ rem ih =>
    intro status attempts waits k tk h1 h2 hk htk hfirst
    by_cases hke : k = attempts + 1
    · subst hke
      rw [pollGo_succ_some r m rem status attempts waits tk hk, if_pos htk]
      exact ⟨rfl, rfl⟩
    · have hkgt : attempts + 1 < k := by omega
      cases hr : r (attempts + 1) with
      | some s =>
        have hs : isTerminal s = false := hfirst (attempts + 1) s (by omega) hkgt hr
        rw [pollGo_succ_some r m rem status attempts waits s hr,
          if_neg (by rw [hs]; exact Bool.false_ne_true)]
        exact ih s (attempts + 1) _ k tk hkgt (by omega) hk htk
          (fun j t hj1 hj2 hjr => hfirst j t (by omega) hj2 hjr)
      | none =>
        rw [pollGo_succ_none r m rem status attempts waits hr]
        exact ih status (attempts + 1) _ k tk hkgt (by omega) hk htk
          (fun j t hj1 hj2 hjr => hfirst j t (by omega) hj2 hjr)

theorem pollGo_exhausts (r : Nat → Option String) (m : Nat) :
    ∀ (rem : Nat) (status : String) (attempts : Nat) (waits : List Nat),
      (∀ j t, attempts < j → j ≤ attempts + rem → r j = some t →
        isTerminal t = false) →
      (pollGo r m rem status attempts waits).attempts = attempts + rem := by
  intro rem
  induction rem with
  | zero =>
    intro status attempts waits _
    rw [pollGo_zero]
    show attempts = attempts + 0
    omega
  | succ rem ih =>
    intro status attempts waits hall
    cases hr : r (attempts + 1) with
    | some s =>
      have hs : isTerminal s = false := hall (attempts + 1) s (by omega) (by omega) hr
      rw [pollGo_succ_some r m rem status attempts waits s hr,
        if_neg (by rw [hs]; exact Bool.false_ne_true)]
      rw [ih s (attempts + 1) _ (fun j t hj1 hj2 hjr => hall j t (by omega) (by omega) hjr)]
      omega
    | none =>
      rw [pollGo_succ_none r m rem status attempts waits hr]
      rw [ih status (attempts + 1) _ (fun j t hj1 hj2 hjr => hall j t (by omega) (by omega) hjr)]
      omega

theorem pollGo_all_active (r : Nat → Option String) (m : Nat) :
    ∀ (rem : Nat) (attempts : Nat) (waits : List Nat),
      (∀ j, attempts < j → j ≤ attempts + rem → r j = none ∨ r j = some "ACTIVE") →
      (pollGo r m rem "ACTIVE" attempts waits).status = "ACTIVE" := by
  intro rem
  induction rem with
  | zero =>
    intro attempts waits _
    rw [pollGo_zero]
  | succ rem ih =>
    intro attempts waits hall
    cases hr : r (attempts + 1) with
    | some s =>
      have hs : s = "ACTIVE" := by
        have h2 := hall (attempts + 1) (by omega) (by omega)
        rw [hr] at h2
        simpa using h2
      subst hs
      rw [pollGo_succ_some r m rem "ACTIVE" attempts waits "ACTIVE" hr,
        if_neg (by simp [isTerminal])]
      exact ih (attempts + 1) _ (fun j hj1 hj2 => hall j (by omega) (by omega))
    | none =>
      rw [pollGo_succ_none r m rem "ACTIVE" attempts waits hr]
      exact ih (attempts + 1) _ (fun j hj1 hj2 => hall j (by omega) (by omega))

theorem pollGo_waits_all (r : Nat → Option String) (m : Nat) :
    ∀ (rem : Nat) (status : String) (attempts : Nat) (waits : List Nat),
      (∀ x ∈ waits, x = 2000) →
      ∀ x ∈ (pollGo r m rem status attempts waits).waits, x = 2000 := by
  intro rem
  induction rem with
  | zero =>
    intro status attempts waits hw
    rw [pollGo_zero]
    exact hw
  | succ rem ih =>
    intro status attempts waits hw
    have hw' : ∀ (b : Bool), ∀ x ∈ (if b = true then waits ++ [2000] else waits), x = 2000 := by
      intro b x hx
      cases b with
      | false => exact hw x (by simpa using hx)
      | true =>
        rw [if_pos rfl] at hx
        rcases List.mem_append.1 hx with h | h
        · exact hw x h
        · simpa using h
    cases hr : r (attempts + 1) with
    | some s =>
      rw [pollGo_succ_some r m rem status attempts waits s hr]
      by_cases ht : isTerminal s = true
      · rw [if_pos ht]
        exact hw
      · rw [if_neg ht]
        exact ih s (attempts + 1) _ (hw' _)
    | none =>
      rw [pollGo_succ_none r m rem status attempts waits hr]
      exact ih status (attempts + 1) _ (hw' _)

/-- C3: for a session with a provider order id, `getPaymentStatus` polls the
order-status endpoint at most 5 times, every inter-attempt wait it performs
is the fixed 2000 ms delay, and it stops at the first response whose raw
status is terminal: the attempt count equals the (1-based) index of that
first terminal response and the final raw status is that response. -/
theorem getPaymentStatus_poll_protocol (r : Nat → Option String) (s : Jval)
    (h : truthy ((flattenData s).get "order_id") = true) :
    (getPaymentStatus r s).2.attempts ≤ 5 ∧
    (∀ x ∈ (getPaymentStatus r s).2.waits, x = 2000) ∧
    ∀ k tk, 1 ≤ k → k ≤ 5 → r k = some tk → isTerminal tk = true →
      (∀ j t, 1 ≤ j → j < k → r j = some t → isTerminal t = false) →
      (getPaymentStatus r s).2.attempts = k ∧
      (getPaymentStatus r s).2.status = tk := by
  have hpair : (getPaymentStatus r s).2 = cashfreePoll r := by
    rw [getPaymentStatus, if_pos h]
  rw [hpair, cashfreePoll]
  refine ⟨?_, ?_, ?_⟩
  · have hle := pollGo_attempts_le r 5 5 "ACTIVE" 0 []
    omega
  · exact pollGo_waits_all r 5 5 "ACTIVE" 0 [] (by intro x hx; cases hx)
  · intro k tk hk1 hk5 hrk htk hfirst
    exact pollGo_first_terminal r 5 5 "ACTIVE" 0 [] k tk (by omega) (by omega)
      hrk htk (fun j t hj1 hj2 hjr => hfirst j t (by omega) hj2 hjr)

/-- Witness for C3: with terminal raw status PAID first appearing on the
second poll, the loop makes exactly 2 attempts and ends on PAID. -/
theorem getPaymentStatus_poll_protocol_witness :
    (getPaymentStatus (fun n => if n == 2 then some "PAID" else some "ACTIVE")
      (Jval.obj [("order_id", Jval.str "ord_1")])).2.attempts = 2 ∧
    (getPaymentStatus (fun n => if n == 2 then some "PAID" else some "ACTIVE")
      (Jval.obj [("order_id", Jval.str "ord_1")])).2.status = "PAID" := by
  have hfirst : ∀ j t, 1 ≤ j → j < 2 →
      (fun n => if n == 2 then some "PAID" else some "ACTIVE") j = some t →
      isTerminal t = false := by
    intro j t hj1 hj2 hjt
    have hj : j = 1 := by omega
    subst hj
    have ht : some "ACTIVE" = some t := hjt
    cases ht
    rfl
  exact (getPaymentStatus_poll_protocol
      (fun n => if n == 2 then some "PAID" else some "ACTIVE")
      (Jval.obj [("order_id", Jval.str "ord_1")])
      (by rw [flattenData_fix (Jval.obj [("order_id", Jval.str "ord_1")]) rfl]; rfl)).2.2
    2 "PAID" (by omega) (by omega) rfl rfl hfirst

/-- C4: when every poll within the ceiling either fails (swallowed) or
reports the active raw status, `getPaymentStatus` returns canonical
PENDING, not ERROR. -/
theorem getPaymentStatus_active_pending (r : Nat → Option String) (s : Jval)
    (h : truthy ((flattenData s).get "order_id") = true)
    (hall : ∀ j, 1 ≤ j → j ≤ 5 → r j = none ∨ r j = some "ACTIVE") :
    (getPaymentStatus r s).1 = PaymentStatus.PENDING := by
  have hst : (cashfreePoll r).status = "ACTIVE" := by
    rw [cashfreePoll]
    exact pollGo_all_active r 5 5 0 [] (fun j hj1 hj2 => hall j (by omega) (by omega))
  rw [getPaymentStatus, if_pos h]
  show normalizeCashfreeStatus (cashfreePoll r).status = PaymentStatus.PENDING
  rw [hst]
  rfl

/-- Witness for C4: the oracle answering ACTIVE on every poll (with some
polls failing) yields canonical PENDING. -/
theorem getPaymentStatus_active_pending_witness :
    (getPaymentStatus (fun n => if n == 3 then none else some "ACTIVE")
      (Jval.obj [("order_id", Jval.str "ord_1")])).1 = PaymentStatus.PENDING := by
  refine getPaymentStatus_active_pending _ _
    (by rw [flattenData_fix (Jval.obj [("order_id", Jval.str "ord_1")]) rfl]; rfl) ?_
  intro j hj1 hj2
  by_cases hj : j = 3
  · subst hj
    exact Or.inl rfl
  · right
    have hb : (j == 3) = false := by
      rw [beq_eq_false_iff_ne]
      exact hj
    show (if (j == 3) = true then none else some "ACTIVE") = some "ACTIVE"
    rw [hb]
    rfl

/-- C5: the Cashfree raw-to-canonical status normalization is a pure total
function mapping ACTIVE to PENDING, PAID to AUTHORIZED, EXPIRED and
USER_DROPPED to CANCELED, and every other raw status to ERROR; identical
raw statuses always normalize identically. -/
theorem normalizeCashfreeStatus_table :
    normalizeCashfreeStatus "ACTIVE" = PaymentStatus.PENDING ∧
    normalizeCashfreeStatus "PAID" = PaymentStatus.AUTHORIZED ∧
    normalizeCashfreeStatus "EXPIRED" = PaymentStatus.CANCELED ∧
    normalizeCashfreeStatus "USER_DROPPED" = PaymentStatus.CANCELED ∧
    (∀ s, s ≠ "ACTIVE" → s ≠ "PAID" → s ≠ "EXPIRED" → s ≠ "USER_DROPPED" →
      normalizeCashfreeStatus s = PaymentStatus.ERROR) ∧
    (∀ s t, s = t → normalizeCashfreeStatus s = normalizeCashfreeStatus t) := by
  refine ⟨rfl, rfl, rfl, rfl, ?_, fun s t hst => by rw [hst]⟩
  intro s h1 h2 h3 h4
  rw [normalizeCashfreeStatus, if_neg (by simp [h2]), if_neg (by simp [h1]),
    if_neg (by simp [h3]), if_neg (by simp [h4])]

/-- Witness for C5: an unlisted raw status normalizes to ERROR. -/
theorem normalizeCashfreeStatus_table_witness :
    normalizeCashfreeStatus "TERMINATED" = PaymentStatus.ERROR :=
  normalizeCashfreeStatus_table.2.2.2.2.1 "TERMINATED"
    (by decide) (by decide) (by decide) (by decide)

/-- Two-digit rendering of the fractional part of a division by 100, as
`toFixed(2)` prints it. -/
def padTwo (f : Nat) : String :=
  if f < 10 then "0" ++ Nat.repr f else Nat.repr f

/-- Minor-to-major amount conversion `(amount / 100).toFixed(2)` used at
service.ts lines 58 and 219, on the non-negative integer minor-unit
amounts the adapter receives (the JS double division and rounding are
exact on this range, so the conversion is modelled in exact integer
arithmetic). -/
def minorToMajor (amount : Nat) : String :=
  Nat.repr (amount / 100) ++ "." ++ padTwo (amount % 100)

theorem padTwo_length : ∀ f, f < 100 → (padTwo f).length = 2 := by decide

/-- C8: the conversion renders 150000 minor units as the string "1500.00",
and for every non-negative integer amount it renders the whole part of
amount/100, a dot, and exactly two fractional digits, with the rendered
parts recombining to the exact input amount. -/
theorem minorToMajor_spec :
    minorToMajor 150000 = "1500.00" ∧
    ∀ n : Nat, ∃ w f, minorToMajor n = Nat.repr w ++ "." ++ padTwo f ∧
      n = 100 * w + f ∧ f < 100 ∧ (padTwo f).length = 2 :=
  ⟨rfl, fun n => ⟨n / 100, n % 100, rfl, by omega, by omega,
    padTwo_length _ (by omega)⟩⟩

/-- Integer read of a `Jval` amount (the adapter's amounts are non-negative
integer minor units). -/
def Jval.asNat : Jval → Nat
  | .num n => n.toNat
  | _ => 0

/-- Cashfree `refundPayment` (service.ts lines 208-245). `gw` is the
`axios.post` to the refund endpoint (order id and request payload to
response, `Except.error` for a thrown request error), `now` is
`Date.now()`. The payload's `refund_amount` carries the converted decimal
amount (the code parses the decimal string back to a JS number before
sending; the string form is kept here). -/
def refundPayment (gw : String → Jval → Except String Jval) (now : Nat)
    (paymentData : Jval) (refundAmount : Nat) : Except String Jval :=
  if truthy ((flattenData paymentData).get "order_id") then
    match gw (((flattenData paymentData).get "order_id").jsString)
        (Jval.obj [
          ("refund_amount", .str (minorToMajor refundAmount)),
          ("refund_id", .str ("refund_" ++
            ((flattenData paymentData).get "order_id").jsString ++ "_" ++
            Nat.repr now)),
          ("refund_note", .str "Customer refund request")]) with
    | .ok resp => .ok (.obj [
        ("cf_refund_id", resp.get "cf_refund_id"),
        ("refund_status", resp.get "refund_status"),
        ("refund_amount", resp.get "refund_amount")])
    | .error e => .error ("Refund failed: " ++ e)
  else
    .error "No order_id found for refund"

/-- JS object-literal update `... v` followed by field `k` (later keys
win). -/
def Jval.setField (v : Jval) (k : String) (x : Jval) : Jval :=
  match v with
  | .obj fields => .obj ((fields.filter (fun p => p.1 != k)) ++ [(k, x)])
  | _ => .obj [(k, x)]

/-- Razorpay `refundPayment` (service.ts Razorpay section): call the SDK
refund with the session's `razorpay_payment_id` and the amount; on SDK
failure the error is logged and rethrown unchanged. -/
def razorpayRefundPayment (sdk : Jval → Nat → Except String Jval)
    (paymentData : Jval) (refundAmount : Nat) : Except String Jval :=
  match sdk (paymentData.get "razorpay_payment_id") refundAmount with
  | .ok refund => .ok (paymentData.setField "refund_id" (refund.get "id"))
  | .error e => .error e

/-- C6: refund sanitizes the session data and throws a fatal error when no
order id is found; and when the gateway refund call fails, for either
provider, the failure propagates to the caller as an error instead of
being swallowed or degraded to a status value. -/
theorem refund_failures_propagate :
    (∀ gw now d amt, truthy ((flattenData d).get "order_id") = false →
      refundPayment gw now d amt = .error "No order_id found for refund") ∧
    (∀ gw now d amt e, (∀ oid p, gw oid p = .error e) →
      truthy ((flattenData d).get "order_id") = true →
      refundPayment gw now d amt = .error ("Refund failed: " ++ e)) ∧
    (∀ sdk d amt e, (∀ pid a, sdk pid a = Except.error e) →
      razorpayRefundPayment sdk d amt = .error e) := by
  refine ⟨?_, ?_, ?_⟩
  · intro gw now d amt h
    rw [refundPayment, if_neg (by rw [h]; exact Bool.false_ne_true)]
  · intro gw now d amt e hgw h
    rw [refundPayment, if_pos h, hgw]
  · intro sdk d amt e hsdk
    rw [razorpayRefundPayment, hsdk]

/-- Witness for C6: a sessionless refund throws the fatal missing-order-id
error, and failing gateway/SDK calls propagate their errors. -/
theorem refund_failures_propagate_witness :
    refundPayment (fun _ _ => Except.error "gateway down") 7 Jval.null 100 =
      Except.error "No order_id found for refund" ∧
    refundPayment (fun _ _ => Except.error "gateway down") 7 baseOrder 100 =
      Except.error "Refund failed: gateway down" ∧
    razorpayRefundPayment (fun _ _ => Except.error "sdk down") baseOrder 100 =
      Except.error "sdk down" :=
  ⟨refund_failures_propagate.1 _ 7 Jval.null 100 rfl,
   refund_failures_propagate.2.1 _ 7 baseOrder 100 "gateway down"
     (fun _ _ => rfl) (by rw [flattenData_fix baseOrder rfl]; rfl),
   refund_failures_propagate.2.2 _ baseOrder 100 "sdk down" (fun _ _ => rfl)⟩

/-- Action-plus-payload result of a webhook handler. -/
structure WebhookOut where
  action : String
  data : Option Jval

/-- Event dispatch of the Razorpay webhook after signature verification:
parse the raw body (`JSON.parse`, throwing on invalid JSON), destructure
`event` and `payload`, and switch on the event type. -/
def razorpayDispatch (parse : String → Option Jval) (rawData : String) :
    Except String WebhookOut :=
  match parse rawData with
  | none => .error "JSON.parse threw"
  | some event => do
        let eventType ← jsGet event "event"
        let payload ← jsGet event "payload"
        match eventType with
        | .str et =>
          if et == "payment.captured" then do
            let payment ← jsGet payload "payment"
            let entity ← jsGet payment "entity"
            let notes ← jsGet entity "notes"
            let rid ← jsGet notes "resource_id"
            let amt ← jsGet entity "amount"
            pure ⟨"captured", some (.obj [("resource_id", rid), ("amount", amt)])⟩
          else if et == "payment.failed" then do
            let payment ← jsGet payload "payment"
            let entity ← jsGet payment "entity"
            let notes ← jsGet entity "notes"
            let rid ← jsGet notes "resource_id"
            pure ⟨"failed", some (.obj [("resource_id", rid)])⟩
          else pure ⟨"not_supported", none⟩
        | _ => pure ⟨"not_supported", none⟩

/-- Body of Razorpay `getWebhookActionAndData` before its catch-all:
signature check against the HMAC-SHA256 hex digest of the raw body, then
the event dispatch. `hmacHex` stands for the external
`crypto.createHmac("sha256", secret).update(raw).digest("hex")`. -/
def razorpayWebhookBody (hmacHex : String → String → String)
    (parse : String → Option Jval) (webhookSecret : String)
    (rawData : String) (headers : List (String × String)) :
    Except String WebhookOut :=
  match headers.lookup "x-razorpay-signature" with
  | none => .ok ⟨"not_supported", none⟩
  | some signature =>
    if webhookSecret == "" || signature == "" then .ok ⟨"not_supported", none⟩
    else if signature != hmacHex webhookSecret rawData then
      .ok ⟨"not_supported", none⟩
    else razorpayDispatch parse rawData

theorem razorpayWebhookBody_some (hmacHex : String → String → String)
    (parse : String → Option Jval) (secret rawData : String)
    (headers : List (String × String)) (s : String)
    (hl : headers.lookup "x-razorpay-signature" = some s) :
    razorpayWebhookBody hmacHex parse secret rawData headers =
      if secret == "" || s == "" then .ok ⟨"not_supported", none⟩
      else if s != hmacHex secret rawData then .ok ⟨"not_supported", none⟩
      else razorpayDispatch parse rawData := by
  rw [razorpayWebhookBody, hl]

/-- Razorpay `getWebhookActionAndData` with its catch-all: any exception in
the body is logged and converted into the not_supported acknowledgement,
so the handler always returns and never raises. -/
def razorpayWebhook (hmacHex : String → String → String)
    (parse : String → Option Jval) (webhookSecret : String)
    (rawData : String) (headers : List (String × String)) : WebhookOut :=
  match razorpayWebhookBody hmacHex parse webhookSecret rawData headers with
  | .ok out => out
  | .error _ => ⟨"not_supported", none⟩

/-- C7: the Razorpay webhook handler compares the signature header against
the HMAC digest of the raw body under the shared webhook secret, and
whenever the secret is unconfigured, the signature header is absent or
empty, or the signature differs from the digest, it returns action
not_supported; being a total function of its oracle inputs, it never
raises. -/
theorem razorpayWebhook_rejects (hmacHex : String → String → String)
    (parse : String → Option Jval) (secret rawData : String)
    (headers : List (String × String))
    (h : secret = "" ∨ headers.lookup "x-razorpay-signature" = none ∨
      headers.lookup "x-razorpay-signature" = some "" ∨
      ∀ s, headers.lookup "x-razorpay-signature" = some s →
        s ≠ hmacHex secret rawData) :
    razorpayWebhook hmacHex parse secret rawData headers =
      ⟨"not_supported", none⟩ := by
  have hbody : razorpayWebhookBody hmacHex parse secret rawData headers =
      .ok ⟨"not_supported", none⟩ := by
    cases hl : headers.lookup "x-razorpay-signature" with
    | none => rw [razorpayWebhookBody, hl]
    | some s =>
      rw [razorpayWebhookBody_some hmacHex parse secret rawData headers s hl]
      rcases h with h | h | h | h
      · subst h
        rw [if_pos (by simp)]
      · rw [hl] at h
        cases h
      · rw [hl] at h
        injection h with h
        subst h
        rw [if_pos (by simp)]
      · have hne : s ≠ hmacHex secret rawData := h s hl
        by_cases hc1 : (secret == "" || s == "") = true
        · rw [if_pos hc1]
        · rw [if_neg hc1, if_pos (by rw [bne_iff_ne]; exact hne)]
  rw [razorpayWebhook, hbody]

/-- Witness for C7: a non-matching signature header is acknowledged with
not_supported. -/
theorem razorpayWebhook_rejects_witness :
    razorpayWebhook (fun secret raw => secret ++ "/" ++ raw) (fun _ => none)
      "whsec" "body" [("x-razorpay-signature", "bad")] =
      ⟨"not_supported", none⟩ :=
  razorpayWebhook_rejects _ _ _ _ _
    (Or.inr (Or.inr (Or.inr (fun s hs => by
      have hs2 : some "bad" = some s := hs
      cases hs2
      decide))))

/-- Cashfree `capturePayment` (service.ts lines 200-202): returns its input
unchanged; the second component lists the gateway calls performed. -/
def capturePayment (paymentData : Jval) : Jval × List String :=
  (paymentData, [])

/-- Cashfree `cancelPayment` (service.ts lines 204-206). -/
def cancelPayment (paymentData : Jval) : Jval × List String :=
  (paymentData, [])

/-- Cashfree `retrievePayment` (service.ts lines 196-198). -/
def retrievePayment (paymentSessionData : Jval) : Jval × List String :=
  (paymentSessionData, [])

/-- Cashfree `deletePayment` (service.ts lines 192-194). -/
def deletePayment (paymentSessionData : Jval) : Jval × List String :=
  (paymentSessionData, [])

/-- Cashfree `authorizePayment` (service.ts lines 104-127): sanitize the
session data, return ERROR with the sanitized data when no order id is
found, otherwise poll for the status and return it with the sanitized
data. -/
def authorizePayment (responses : Nat → Option String)
    (paymentSessionData : Jval) : PaymentStatus × Jval :=
  if truthy ((flattenData paymentSessionData).get "order_id") then
    ((getPaymentStatus responses (flattenData paymentSessionData)).1,
      flattenData paymentSessionData)
  else
    (.ERROR, flattenData paymentSessionData)

/-- Cashfree `initiatePayment` (service.ts lines 53-102). `gwCreate` is the
`axios.post` order-creation call (request payload to gateway response),
`now` is `Date.now()`, `rand` the `Math.random().toString(36).substring(7)`
fallback suffix, `storefrontUrl` the `process.env.STOREFRONT_URL` default
already combined with the fallback. The amount is read as a non-negative
integer and converted with `minorToMajor`. -/
def initiatePayment (gwCreate : Jval → Except String Jval) (now : Nat)
    (rand : String) (storefrontUrl : String) (context : Jval) :
    Except String Jval :=
  let validResourceId := if truthy (context.get "resource_id")
    then (context.get "resource_id").jsString else "sess_" ++ rand
  let externalId := validResourceId ++ "_" ++ Nat.repr now
  let customer := context.get "customer"
  let payload := Jval.obj [
    ("order_id", .str externalId),
    ("order_amount", .str (minorToMajor (context.get "amount").asNat)),
    ("order_currency", .str ((context.get "currency_code").jsString.toUpper)),
    ("customer_details", .obj [
      ("customer_id", if truthy (customer.get "id") then customer.get "id"
        else .str ("guest_" ++ validResourceId)),
      ("customer_phone", if truthy (customer.get "phone")
        then customer.get "phone" else .str "9999999999"),
      ("customer_email", if truthy (customer.get "email")
        then customer.get "email" else .str "test@example.com")]),
    ("order_meta", .obj [
      ("return_url",
        if truthy ((context.get "context").get "return_url")
        then (context.get "context").get "return_url"
        else .str (storefrontUrl ++
          "/checkout?step=review&payment_id=\x7border_id\x7d"))])]
  match gwCreate payload with
  | .ok resp => .ok (.obj [("data", .obj [
      ("cf_order_id", resp.get "cf_order_id"),
      ("order_id", resp.get "order_id"),
      ("payment_session_id", resp.get "payment_session_id"),
      ("order_status", resp.get "order_status"),
      ("payment_link", resp.get "payment_link")])])
  | .error e => .error ("Cashfree Init Failed: " ++ e)

/-- Cashfree `updatePayment` (service.ts lines 188-190): it simply
re-initiates the payment, deriving a fresh gateway order id from the
resource id and the current timestamp. -/
def updatePayment (gwCreate : Jval → Except String Jval) (now : Nat)
    (rand : String) (storefrontUrl : String) (context : Jval) :
    Except String Jval :=
  initiatePayment gwCreate now rand storefrontUrl context

/-- A gateway order-creation oracle that echoes the request payload back,
as Cashfree echoes the submitted `order_id`. -/
def gwEcho : Jval → Except String Jval := fun payload => .ok payload

/-- An update context whose persisted session data already carries the
provider order id `old_order`. -/
def ctxWithOldOrder : Jval := .obj [
  ("currency_code", .str "inr"),
  ("amount", .num 50000),
  ("resource_id", .str "cart_1"),
  ("data", .obj [("order_id", .str "old_order")])]

/-- C9 counterexample: on a session that already carries provider order id
`old_order`, `updatePayment` (which re-initiates) returns session data
carrying the freshly generated order id `cart_1_999` — the provider order
id is not immutable across updatePayment. -/
theorem updatePayment_changes_order_id :
    (ctxWithOldOrder.get "data").get "order_id" = Jval.str "old_order" ∧
    (updatePayment gwEcho 999 "rnd" "http://localhost:8000"
        ctxWithOldOrder).map (fun v => (v.get "data").get "order_id") =
      Except.ok (Jval.str "cart_1_999") ∧
    Jval.str "cart_1_999" ≠ Jval.str "old_order" := by
  refine ⟨rfl, rfl, ?_⟩
  intro h
  injection h with h
  exact absurd h (by decide)

/-- C9 amended: for a session whose provider order id is set, every adapter
operation other than `updatePayment` returns session data carrying the
same order id: sanitizing leaves the session unchanged, the gateway-free
operations return it unchanged, and authorize returns the sanitized data
itself. -/
theorem order_id_preserved_outside_update (d : Jval)
    (h : truthy (d.get "order_id") = true) :
    flattenData d = d ∧
    capturePayment d = (d, []) ∧ cancelPayment d = (d, []) ∧
    retrievePayment d = (d, []) ∧ deletePayment d = (d, []) ∧
    ∀ r, (authorizePayment r d).2 = d := by
  have hfix := flattenData_fix d h
  refine ⟨hfix, rfl, rfl, rfl, rfl, fun r => ?_⟩
  rw [authorizePayment]
  by_cases hc : truthy ((flattenData d).get "order_id") = true
  · rw [if_pos hc]
    exact hfix
  · rw [if_neg hc]
    exact hfix

/-- Witness for the amended C9: a session with a set order id passes
through sanitizer and capture unchanged. -/
theorem order_id_preserved_outside_update_witness :
    flattenData baseOrder = baseOrder ∧
    capturePayment baseOrder = (baseOrder, []) :=
  ⟨(order_id_preserved_outside_update baseOrder rfl).1,
   (order_id_preserved_outside_update baseOrder rfl).2.1⟩

/-- C10: the Cashfree capture, cancel, retrieve and delete operations
return their input payment data unchanged and perform no gateway call. -/
theorem passthrough_ops_identity (d : Jval) :
    capturePayment d = (d, []) ∧ cancelPayment d = (d, []) ∧
    retrievePayment d = (d, []) ∧ deletePayment d = (d, []) :=
  ⟨rfl, rfl, rfl, rfl⟩

end CashfreeAdapter
